import Mathlib

/-!
Verification development for the DJS02 podcast-preview repository.

The development shallowly embeds the two core components:

* `PodcastPreview` (src/components/PodcastPreview.js, present in two
  variants in the repository) — a custom element keeping a string-keyed
  declared state (the observed attributes `pid`, `title`, `image`,
  `genres`, `seasons`, `updated`) together with an optional structured
  object (`_data`), deriving a view model (`get value`), mirroring
  structured assignments back into attributes (`set data`), dispatching
  the `podcast-select` custom event, and maintaining an `aria-label`.

* `createModal` (src/components/createModal.js) — the modal dialog
  controller with `open`/`close`, Escape handling and focus restoration.

JavaScript strings are modelled as Lean `String`s (manipulated through
their character lists); JavaScript numbers produced by `Number(string)`
are modelled exactly as rationals (every value this program parses from
an attribute string is a decimal and hence exact), plus the distinguished
`NaN` and signed-infinity values.
-/

namespace DJS02

/-! ### Character-level string helpers (models of the JS string methods used) -/

/-- Model of `String.prototype.trim`: drop leading and trailing whitespace. -/
def trimChars (l : List Char) : List Char :=
  ((l.dropWhile Char.isWhitespace).reverse.dropWhile Char.isWhitespace).reverse

/-- `trimS` is `trim` on packed strings. -/
def trimS (s : String) : String := ⟨trimChars s.data⟩

/-- Model of `String.prototype.split(",")`, accumulator-based. -/
def splitCommaAux : List Char → List Char → List (List Char)
  | [], acc => [acc.reverse]
  | c :: cs, acc =>
    if c = ',' then acc.reverse :: splitCommaAux cs [] else splitCommaAux cs (c :: acc)

/-- `split(",")` on a packed string. -/
def splitComma (s : String) : List String :=
  (splitCommaAux s.data []).map (fun l => (⟨l⟩ : String))

/-- Model of `Array.prototype.join(",")` at the character level. -/
def joinCommaChars : List (List Char) → List Char
  | [] => []
  | [x] => x
  | x :: y :: xs => x ++ ',' :: joinCommaChars (y :: xs)

/-- `join(",")` on packed strings. -/
def joinComma (l : List String) : String := ⟨joinCommaChars (l.map String.data)⟩

/-! ### Decimal digits and printing of integral JS numbers -/

/-- The character for one decimal digit. -/
def digitChar : Nat → Char
  | 0 => '0' | 1 => '1' | 2 => '2' | 3 => '3' | 4 => '4'
  | 5 => '5' | 6 => '6' | 7 => '7' | 8 => '8' | _ => '9'

/-- Numeric value of a decimal digit character. -/
def digitVal (c : Char) : Nat := c.toNat - 48

/-- Value of a most-significant-first decimal digit string. -/
def digitsVal (l : List Char) : Nat := l.foldl (fun a c => 10 * a + digitVal c) 0

/-- Fuel-driven most-significant-first decimal digits of a natural number
(the fuel makes the definition structurally recursive, hence kernel-reducible). -/
def natDigitsAux : Nat → Nat → List Char
  | 0, _ => []
  | fuel + 1, n =>
    if n < 10 then [digitChar n] else natDigitsAux fuel (n / 10) ++ [digitChar (n % 10)]

/-- Decimal digits of a natural number, most significant first. -/
def natDigits (n : Nat) : List Char := natDigitsAux (n + 1) n

/-- Model of JS `ToString` on a non-negative integral number. -/
def natToString (n : Nat) : String := ⟨natDigits n⟩

/-- Model of JS `ToString` on an integral number (sign included). -/
def intToString (k : Int) : String :=
  if k < 0 then (⟨'-' :: natDigits k.natAbs⟩ : String) else (⟨natDigits k.natAbs⟩ : String)

/-! ### The JS `Number(string)` model -/

/-- A JavaScript number as this program can observe it: `NaN`, a signed
infinity, or a finite value.  Finite values arising from parsing decimal
strings are exact rationals. -/
inductive JsNum where
  | nan : JsNum
  | inf : Bool → JsNum
  | fin : ℚ → JsNum
deriving DecidableEq, Repr

/-- `Number.isFinite`. -/
def JsNum.isFinite : JsNum → Bool
  | .fin _ => true
  | _ => false

/-- Split a character list at the first character satisfying `p`;
returns the prefix and, when a separator was found, the remainder after it. -/
def splitFirst (p : Char → Bool) : List Char → List Char × Option (List Char)
  | [] => ([], none)
  | c :: cs =>
    if p c then ([], some cs)
    else
      let r := splitFirst p cs
      (c :: r.1, r.2)

/-- Raise/lower a rational by a power of ten (the exponent part of a literal). -/
def tenPow (e : Int) (q : ℚ) : ℚ :=
  if 0 ≤ e then q * ((10 : ℚ) ^ e.toNat) else q / ((10 : ℚ) ^ (-e).toNat)

/-- Parse the exponent of a decimal literal: optional sign then digits. -/
def parseExp (l : List Char) : Option Int :=
  match l with
  | '+' :: r => if !r.isEmpty && r.all Char.isDigit then some (digitsVal r) else none
  | '-' :: r => if !r.isEmpty && r.all Char.isDigit then some (-(digitsVal r : Int)) else none
  | r => if !r.isEmpty && r.all Char.isDigit then some (digitsVal r) else none

/-- Parse the mantissa of a decimal literal: digits with an optional single
decimal point, at least one digit present on some side. -/
def mantissaOfParts (ip : List Char) : Option (List Char) → Option ℚ
  | none => if !ip.isEmpty && ip.all Char.isDigit then some (digitsVal ip : ℚ) else none
  | some fp =>
    if ip.all Char.isDigit && fp.all Char.isDigit && !(ip.isEmpty && fp.isEmpty) then
      some ((digitsVal ip : ℚ) + (digitsVal fp : ℚ) / ((10 : ℚ) ^ fp.length))
    else none

/-- The mantissa split at its decimal point. -/
def parseMantissa (l : List Char) : Option ℚ :=
  mantissaOfParts (splitFirst (fun c => c = '.') l).1 (splitFirst (fun c => c = '.') l).2

/-- Combine a parsed mantissa with an optional exponent part. -/
def decOfParts (mant : List Char) : Option (List Char) → Option ℚ
  | none => parseMantissa mant
  | some ep =>
    match parseMantissa mant, parseExp ep with
    | some m, some e => some (tenPow e m)
    | _, _ => none

/-- Parse an unsigned decimal literal (mantissa with optional exponent part). -/
def parseDec (l : List Char) : Option ℚ :=
  decOfParts (splitFirst (fun c => c = 'e' || c = 'E') l).1
    (splitFirst (fun c => c = 'e' || c = 'E') l).2

/-- Hexadecimal digit test. -/
def isHexDigit (c : Char) : Bool :=
  c.isDigit || ('a' ≤ c && c ≤ 'f') || ('A' ≤ c && c ≤ 'F')

/-- Hexadecimal digit value. -/
def hexVal (c : Char) : Nat :=
  if c.isDigit then c.toNat - 48
  else if 'a' ≤ c && c ≤ 'f' then c.toNat - 87
  else c.toNat - 55

/-- Parse a non-decimal radix literal body (after `0x`, `0b` or `0o`). -/
def radixNum (base : Nat) (isD : Char → Bool) (val : Char → Nat) (l : List Char) : JsNum :=
  if !l.isEmpty && l.all isD then .fin ((l.foldl (fun a c => base * a + val c) 0 : Nat) : ℚ)
  else .nan

/-- The character list of the literal `Infinity`. -/
def infinityChars : List Char := ['I', 'n', 'f', 'i', 'n', 'i', 't', 'y']

/-- Parse an unsigned decimal numeric literal or `Infinity`; `neg` records a
leading minus sign already consumed. -/
def unsignedDec (r : List Char) (neg : Bool) : JsNum :=
  if r = infinityChars then .inf neg
  else
    match parseDec r with
    | some q => .fin (if neg then -q else q)
    | none => .nan

/-- Consume an optional sign and parse the rest as a decimal literal. -/
def signedDec : List Char → JsNum
  | [] => .nan
  | c :: r =>
    if c = '+' then unsignedDec r false
    else if c = '-' then unsignedDec r true
    else unsignedDec (c :: r) false

/-- Recognise the signless radix-prefixed forms `0x…`, `0b…`, `0o…`. -/
def radixBranch (l : List Char) : Option JsNum :=
  match l with
  | c0 :: x :: r =>
    if c0 = '0' then
      if x = 'x' || x = 'X' then some (radixNum 16 isHexDigit hexVal r)
      else if x = 'b' || x = 'B' then some (radixNum 2 (fun c => c = '0' || c = '1') digitVal r)
      else if x = 'o' || x = 'O' then some (radixNum 8 (fun c => '0' ≤ c && c ≤ '7') digitVal r)
      else none
    else none
  | _ => none

/-- Model of JS `Number(string)` (ECMAScript `StringToNumber`): trim
whitespace, empty means `+0`, then radix-prefixed forms (signless) or a
signed decimal literal / `Infinity`; anything else is `NaN`. -/
def strToNumChars (l0 : List Char) : JsNum :=
  let l := trimChars l0
  if l.isEmpty then .fin 0
  else
    match radixBranch l with
    | some v => v
    | none => signedDec l

/-- `Number` applied to a packed string. -/
def strToNum (s : String) : JsNum := strToNumChars s.data

/-- `Number` applied to a `getAttribute` result: `Number(null)` is `+0`. -/
def jsNumOfAttr : Option String → JsNum
  | none => .fin 0
  | some s => strToNum s

/-! ### Printing finite JS numbers

Every finite number this program reads out of an attribute comes from a
decimal literal, so its denominator divides a power of ten and JS prints
it back as the same finite decimal (shortest round-trip printing).  The
unreachable non-ten-smooth case gets a fallback rendering. -/

/-- Least `e ≤ fuel` with `den ∣ 10 ^ e`, if any. -/
def smooth10Exp (fuel : Nat) (den : Nat) : Option Nat :=
  (List.range (fuel + 1)).find? (fun e => den ∣ 10 ^ e)

/-- Model of JS `ToString` on a finite number whose denominator divides a
power of ten (exactly the numbers `Number(attribute)` can produce). -/
def decToString (q : ℚ) : String :=
  if q.den = 1 then intToString q.num
  else
    match smooth10Exp q.den q.den with
    | some e =>
      let scaled := q.num.natAbs * (10 ^ e / q.den)
      let ds := natDigits scaled
      let padded := List.replicate (e + 1 - ds.length) '0' ++ ds
      let ip := padded.take (padded.length - e)
      let fp := padded.drop (padded.length - e)
      ⟨(if q.num < 0 then ['-'] else []) ++ ip ++ '.' :: fp⟩
    | none => intToString q.num ++ "/" ++ natToString q.den

/-- Rendering of a JS number by a template literal. -/
def JsNum.toDisplay : JsNum → String
  | .nan => "NaN"
  | .inf b => if b then "-Infinity" else "Infinity"
  | .fin q => decToString q

/-! ### The data model of the preview element -/

/-- A genre entry as it occurs in a parsed genres list or in a structured
object: a JS number or a string (src/components/PodcastPreview.js,
`_readGenres`). -/
inductive GVal where
  | num : JsNum → GVal
  | str : String → GVal
deriving DecidableEq, Repr

/-- Template-literal rendering of a genre entry (used when tags are written
verbatim into the DOM). -/
def GVal.toDisplay : GVal → String
  | .num v => v.toDisplay
  | .str s => s

/-- A genre field entry of a structured `PodcastSummary` object: an integer
ID or a display-name string (spec §3 data model). -/
inductive SGenre where
  | gid : Int → SGenre
  | gname : String → SGenre
deriving DecidableEq, Repr

/-- How `Array.prototype.join` stringifies one summary genre entry. -/
def SGenre.toJoinString : SGenre → String
  | .gid k => intToString k
  | .gname s => s

/-- The JS value of a summary genre entry, as `this._data?.genres` hands it
back to the `value` getter. -/
def SGenre.toGVal : SGenre → GVal
  | .gid k => .num (.fin (k : ℚ))
  | .gname s => .str s

/-- A structured object of the `PodcastSummary` shape (spec §3): absent or
`null` fields are `none`.  The season count is a non-negative integer and
genres are integer IDs or display-name strings, as the data model states. -/
structure Summary where
  id : Option String := none
  title : Option String := none
  image : Option String := none
  genres : Option (List SGenre) := none
  seasons : Option Nat := none
  updated : Option String := none
  description : Option String := none
deriving DecidableEq, Repr

/-- The declared state: the six observed attributes of the element,
`none` when the attribute is not present. -/
structure Attrs where
  pid : Option String := none
  title : Option String := none
  image : Option String := none
  genres : Option String := none
  seasons : Option String := none
  updated : Option String := none
deriving DecidableEq, Repr

/-- The element's whole state: declared attributes plus the retained
structured object reference (`this._data`). -/
structure ElemState where
  attrs : Attrs := {}
  data : Option Summary := none
deriving DecidableEq, Repr

/-- The view model produced by the `value` getter. -/
structure ViewModel where
  id : String
  title : String
  image : String
  genres : List GVal
  seasons : JsNum
  updated : String
  description : String
deriving DecidableEq, Repr

/-! ### The `value` getter and its helpers -/

/-- JS `a || d` where `a` is a `getAttribute` result or an optional object
field: the fallback fires on `null`/`undefined` and on the empty string. -/
def orNE (a : Option String) (d : String) : String :=
  match a with
  | some s => if s = "" then d else s
  | none => d

/-- `PodcastPreview._readInt` on the `seasons` attribute:
`Number(getAttribute)` when finite, else the structured field, else 0. -/
def readInt (st : ElemState) : JsNum :=
  let n := jsNumOfAttr st.attrs.seasons
  if n.isFinite then n else .fin ((st.data.bind fun d => d.seasons).getD 0 : ℚ)

/-- Classification of one trimmed genres token: a number unless `Number`
yields `NaN`, else the string itself. -/
def classify (t : String) : GVal :=
  match strToNum t with
  | .nan => .str t
  | v => .num v

/-- The comma-split / trim / drop-empty / numeric-coerce pipeline of
`PodcastPreview._readGenres` applied to a present attribute value. -/
def parseGenres (raw : String) : List GVal :=
  (((splitComma raw).map trimS).filter (fun s => s != "")).map classify

/-- `PodcastPreview._readGenres`: the structured list is consulted only
when the attribute is absent (`getAttribute` returned `null`). -/
def readGenres (st : ElemState) : List GVal :=
  match st.attrs.genres with
  | none => ((st.data.bind fun d => d.genres).getD []).map SGenre.toGVal
  | some raw => parseGenres raw

/-- `PodcastPreview.get value`. -/
def getValue (st : ElemState) : ViewModel where
  id := orNE st.attrs.pid (orNE (st.data.bind fun d => d.id) "")
  title := orNE st.attrs.title (orNE (st.data.bind fun d => d.title) "")
  image := orNE st.attrs.image (orNE (st.data.bind fun d => d.image) "")
  genres := readGenres st
  seasons := readInt st
  updated := orNE st.attrs.updated (orNE (st.data.bind fun d => d.updated) "")
  description := orNE (st.data.bind fun d => d.description) ""

/-! ### The `data` setter -/

/-- The string `set data` writes into the `genres` attribute:
`Array.isArray(obj.genres) ? obj.genres.join(",") : (obj.genres ?? "")`. -/
def genresAttrOf (o : Summary) : String :=
  match o.genres with
  | some l => joinComma (l.map SGenre.toJoinString)
  | none => ""

/-- The string `set data` writes into the `seasons` attribute
(`obj.seasons ?? ""`, stringified by `setAttribute`). -/
def seasonsAttrOf (o : Summary) : String :=
  match o.seasons with
  | some n => natToString n
  | none => ""

/-- `PodcastPreview.set data`: retain the object (`??`-coerced to `null`)
and, when it is non-null, mirror every field into the declared attributes. -/
def setData (st : ElemState) : Option Summary → ElemState
  | none => { st with data := none }
  | some o =>
    { data := some o
      attrs :=
        { pid := some (o.id.getD "")
          title := some (o.title.getD "")
          image := some (o.image.getD "")
          seasons := some (seasonsAttrOf o)
          updated := some (o.updated.getD "")
          genres := some (genresAttrOf o) } }

/-! ### The accessible label

The repository carries two variants of PodcastPreview.js.  Variant A
(src/src/components/PodcastPreview.js) labels the element
`Open details for “<title>”`; variant B (src/unnamed/part_001) labels it
`<title>` or `<title> — N season(s)`. -/

/-- `_syncAria` of variant A (src/src/components/PodcastPreview.js):
`title || _data?.title || "Open podcast details"` wrapped in
`Open details for “…”`. -/
def ariaLabelA (st : ElemState) : String :=
  "Open details for “" ++ orNE st.attrs.title (orNE (st.data.bind fun d => d.title) "Open podcast details") ++ "”"

/-- The resolved title of `_syncAria` in variant B:
`title || _data?.title || "Podcast"`. -/
def resolvedTitleB (st : ElemState) : String :=
  orNE st.attrs.title (orNE (st.data.bind fun d => d.title) "Podcast")

/-- The seasons half of the variant-B label: empty when the count is falsy,
else `N season` with an `s` appended when `N > 1`. -/
def seasonsLabelB (st : ElemState) : String :=
  match readInt st with
  | .fin q => if q = 0 then "" else decToString q ++ " season" ++ (if 1 < q then "s" else "")
  | .inf b => (JsNum.inf b).toDisplay ++ " season" ++ (if b then "" else "s")
  | .nan => ""

/-- `_syncAria` of variant B (src/unnamed/part_001): the resolved title,
joined to the seasons label by an em dash when that label is non-empty. -/
def ariaLabelB (st : ElemState) : String :=
  if seasonsLabelB st = "" then resolvedTitleB st
  else resolvedTitleB st ++ " — " ++ seasonsLabelB st

/-- The six observed attributes. -/
inductive AttrKey where
  | pid | title | image | genres | seasons | updated
deriving DecidableEq, Repr

/-- Write one declared attribute. -/
def setAttr (st : ElemState) : AttrKey → String → ElemState
  | .pid, v => { st with attrs := { st.attrs with pid := some v } }
  | .title, v => { st with attrs := { st.attrs with title := some v } }
  | .image, v => { st with attrs := { st.attrs with image := some v } }
  | .genres, v => { st with attrs := { st.attrs with genres := some v } }
  | .seasons, v => { st with attrs := { st.attrs with seasons := some v } }
  | .updated, v => { st with attrs := { st.attrs with updated := some v } }

/-- A variant-A element: its state plus the currently applied `aria-label`. -/
structure ElemA where
  st : ElemState
  aria : String
deriving DecidableEq, Repr

/-- A variant-B element: its state plus the currently applied `aria-label`. -/
structure ElemB where
  st : ElemState
  aria : String
deriving DecidableEq, Repr

/-- `setAttribute` on a variant-A element: the attribute changes and
`attributeChangedCallback` re-renders and re-syncs the label. -/
def setAttrA (e : ElemA) (k : AttrKey) (v : String) : ElemA :=
  let st := setAttr e.st k v
  ⟨st, ariaLabelA st⟩

/-- `setAttribute` on a variant-B element. -/
def setAttrB (e : ElemB) (k : AttrKey) (v : String) : ElemB :=
  let st := setAttr e.st k v
  ⟨st, ariaLabelB st⟩

/-- `set data` on a variant-A element: the setter ends with an explicit
`this._syncAria()`, so the label is recomputed even for a null assignment. -/
def setDataA (e : ElemA) (o : Option Summary) : ElemA :=
  let st := setData e.st o
  ⟨st, ariaLabelA st⟩

/-- `set data` on a variant-B element: no explicit sync; the label is
refreshed only through the attribute callbacks, which fire only when the
assigned object is non-null (a null assignment touches no attribute). -/
def setDataB (e : ElemB) (o : Option Summary) : ElemB :=
  let st := setData e.st o
  match o with
  | some _ => ⟨st, ariaLabelB st⟩
  | none => ⟨st, e.aria⟩

/-! ### Activation and the selection event -/

/-- The custom event dispatched by `_emitSelect`. -/
structure SelectionEvent where
  name : String
  bubbles : Bool
  composed : Bool
  detail : ViewModel
deriving DecidableEq, Repr

/-- `_emitSelect`: a bubbling, composed `podcast-select` event whose detail
is the current view model. -/
def selectEvent (st : ElemState) : SelectionEvent :=
  { name := "podcast-select", bubbles := true, composed := true, detail := getValue st }

/-- What one `keydown` dispatch produces. -/
structure KeydownResult where
  events : List SelectionEvent
  defaultPrevented : Bool
deriving DecidableEq, Repr

/-- The element's `keydown` listener: Enter or Space prevents the default
and emits exactly one selection event; every other key does nothing. -/
def keydown (st : ElemState) (key : String) : KeydownResult :=
  if key = "Enter" || key = " " then
    { events := [selectEvent st], defaultPrevented := true }
  else
    { events := [], defaultPrevented := false }

/-- The events produced by a sequence of key presses (the element state is
not mutated by the listener). -/
def keySequenceEvents (st : ElemState) (keys : List String) : List SelectionEvent :=
  (keys.map fun k => (keydown st k).events).flatten

/-! ### The modal controller (src/components/createModal.js) -/

/-- A focusable document element: the dialog's close control or any other
node. -/
inductive Elem where
  | closeBtn : Elem
  | node : Nat → Elem
deriving DecidableEq, Repr

/-- The surrounding document: which elements are attached and which one
holds focus. -/
structure Doc where
  attached : List Elem
  active : Option Elem
deriving DecidableEq, Repr

/-- One entry of the external season lookup table. -/
structure SeasonDetail where
  title : String
  episodes : Nat
deriving DecidableEq, Repr

/-- The external collaborators of the modal and the preview renderer
(spec §6): genre resolution, date formatting and the season lookup. -/
structure Collab where
  getNames : List GVal → List String
  dateFmt : String → String
  seasonLookup : String → List SeasonDetail

/-- The genre tags a renderer writes: the whole list resolved through the
genre resolver when its first entry is a JS number, else the entries
verbatim (stringified by the template literal). -/
def resolveTags (getNames : List GVal → List String) (genres : List GVal) : List String :=
  match genres with
  | .num _ :: _ => getNames genres
  | _ => genres.map GVal.toDisplay

/-- The tags the preview's `_render` writes (it reads `this.value`). -/
def previewTags (c : Collab) (st : ElemState) : List String :=
  resolveTags c.getNames (getValue st).genres

/-- The tags `updateContent` writes for a selection payload (its genres are
always an array, so the `Array.isArray` guard is satisfied). -/
def modalTags (c : Collab) (p : ViewModel) : List String :=
  resolveTags c.getNames p.genres

/-- Everything `updateContent` writes into the dialog; each field is a pure
function of the podcast argument alone. -/
structure ModalContent where
  imageSrc : String
  imageAlt : String
  titleText : String
  descText : String
  genreTags : List String
  updatedText : String
  seasonData : List SeasonDetail
deriving DecidableEq, Repr

/-- `updateContent`. -/
def updateContent (c : Collab) (p : ViewModel) : ModalContent where
  imageSrc := p.image
  imageAlt := if p.title = "" then "Podcast cover" else p.title
  titleText := p.title
  descText := p.description
  genreTags := modalTags c p
  updatedText := c.dateFmt p.updated
  seasonData := c.seasonLookup p.id

/-- The controller's mutable state: current dialog content, visibility
flags, the number of registered Escape listeners and the remembered focus
target. -/
structure Modal where
  content : Option ModalContent := none
  hiddenClass : Bool := true
  ariaHidden : Bool := true
  escListeners : Nat := 0
  lastFocus : Option Elem := none
deriving DecidableEq, Repr

/-- Document plus controller. -/
structure World where
  doc : Doc
  modal : Modal
deriving DecidableEq, Repr

/-- `document.addEventListener("keydown", trapKey, true)`: registering the
same callback/capture pair again is discarded by the DOM, so the
registration count only ever moves from zero to one. -/
def addTrapKey (n : Nat) : Nat := if n = 0 then 1 else n

/-- `api.open(podcast)`: remember the active element, replace the content,
unhide, focus the close control, register the Escape listener. -/
def openModal (c : Collab) (w : World) (p : ViewModel) : World where
  doc := { w.doc with active := some .closeBtn }
  modal :=
    { content := some (updateContent c p)
      hiddenClass := false
      ariaHidden := false
      escListeners := addTrapKey w.modal.escListeners
      lastFocus := w.doc.active }

/-- `api.close()`: hide, deregister the Escape listener, restore focus to
the remembered target only when it is still attached, then clear the
remembered reference. -/
def closeModal (w : World) : World where
  doc :=
    match w.modal.lastFocus with
    | some e => if e ∈ w.doc.attached then { w.doc with active := some e } else w.doc
    | none => w.doc
  modal :=
    { content := w.modal.content
      hiddenClass := true
      ariaHidden := true
      escListeners := 0
      lastFocus := none }

/-- One Escape key press: every registered `trapKey` listener fires once,
each invoking `api.close()`; the second component counts those
invocations. -/
def pressEscape (w : World) : World × Nat :=
  (closeModal^[w.modal.escListeners] w, w.modal.escListeners)

/-! ### Claim-side formulations

The following definitions restate, in the spec's own words, readings that
the claims assert about the code; the theorems below compare them with
the embedded source functions. -/

/-- The view model a structured assignment is claimed to reproduce:
every field of the object, missing fields as their empty defaults. -/
def reproVM (o : Summary) : ViewModel where
  id := o.id.getD ""
  title := o.title.getD ""
  image := o.image.getD ""
  genres := (o.genres.getD []).map SGenre.toGVal
  seasons := .fin ((o.seasons.getD 0 : Nat) : ℚ)
  updated := o.updated.getD ""
  description := o.description.getD ""

/-- A well-behaved summary for the round-trip: every genre display name is
non-empty, free of commas and surrounding whitespace, and not itself
parseable as a number. -/
def GoodGenre : SGenre → Prop
  | .gid _ => True
  | .gname s => s ≠ "" ∧ trimS s = s ∧ ',' ∉ s.data ∧ strToNum s = .nan

instance : DecidablePred GoodGenre := fun g =>
  match g with
  | .gid _ => .isTrue trivial
  | .gname s =>
    inferInstanceAs (Decidable (s ≠ "" ∧ trimS s = s ∧ ',' ∉ s.data ∧ strToNum s = .nan))

/-- All genre entries of the summary are well-behaved. -/
def GoodSummary (o : Summary) : Prop := ∀ g ∈ o.genres.getD [], GoodGenre g

instance (o : Summary) : Decidable (GoodSummary o) := by
  unfold GoodSummary
  infer_instance

/-- Spec reading of a string key: the declared value when present and
non-empty, else the structured field when present and non-empty, else
the empty string. -/
def firstNonEmpty2 (a b : Option String) : String :=
  match a.filter (fun s => s != "") with
  | some s => s
  | none => (b.filter (fun s => s != "")).getD ""

/-- The seasons read as the code actually performs it, stated spec-side:
a present attribute that parses to a finite number wins; a present
attribute that does not forces the structured fallback; an absent
attribute is read as zero without consulting the structured state. -/
def specSeasonsRead (st : ElemState) : JsNum :=
  match st.attrs.seasons with
  | none => .fin 0
  | some v =>
    match strToNum v with
    | .fin q => .fin q
    | _ => .fin ((st.data.bind fun d => d.seasons).getD 0 : ℚ)

/-- The genres read stated spec-side: a present attribute (even empty) is
parsed; only an absent attribute exposes the structured list. -/
def specGenresRead (st : ElemState) : List GVal :=
  match st.attrs.genres with
  | some raw => (((splitComma raw).map trimS).filter (fun s => s != "")).map classify
  | none => ((st.data.bind fun d => d.genres).getD []).map SGenre.toGVal

/-- The seasons read as claim C2 states it: the declared value when one is
present, the structured field when the declared value is absent, else 0. -/
def claimC2SeasonsRead (st : ElemState) : JsNum :=
  match st.attrs.seasons with
  | some v =>
    match strToNum v with
    | .fin q => .fin q
    | _ => .fin ((st.data.bind fun d => d.seasons).getD 0 : ℚ)
  | none => .fin ((st.data.bind fun d => d.seasons).getD 0 : ℚ)

/-- A genre token as claim C3 describes the parse output: an integer or a
kept string. -/
def IsIntOrStrToken : GVal → Prop
  | .num (.fin q) => ∃ k : Int, q = (k : ℚ)
  | .num _ => False
  | .str _ => True

/-- The accessible label claimed in C7: the title alone at season count
zero, else the title joined by an em dash to `N season(s)` with correct
pluralization. -/
def specC7SeasonsPart (n : Nat) : String :=
  natToString n ++ " season" ++ (if 2 ≤ n then "s" else "")

/-- The claimed label as a function of title and season count. -/
def specC7Label (t : String) (n : Nat) : String :=
  if n = 0 then t else t ++ " — " ++ specC7SeasonsPart n

/-- Does the first genre token carry a JS number? -/
def numHead : List GVal → Bool
  | .num _ :: _ => true
  | _ => false

/-- No view-model field of the state is being served from the structured
fallback (the frame condition under which clearing the structured object
changes only the description). -/
def NoStructFallback (st : ElemState) : Prop :=
  (orNE st.attrs.pid "" ≠ "" ∨ orNE (st.data.bind fun d => d.id) "" = "") ∧
  (orNE st.attrs.title "" ≠ "" ∨ orNE (st.data.bind fun d => d.title) "" = "") ∧
  (orNE st.attrs.image "" ≠ "" ∨ orNE (st.data.bind fun d => d.image) "" = "") ∧
  (orNE st.attrs.updated "" ≠ "" ∨ orNE (st.data.bind fun d => d.updated) "" = "") ∧
  (st.attrs.genres ≠ none ∨ (st.data.bind fun d => d.genres).getD [] = []) ∧
  ((jsNumOfAttr st.attrs.seasons).isFinite = true ∨ (st.data.bind fun d => d.seasons).getD 0 = 0)

instance (st : ElemState) : Decidable (NoStructFallback st) := by
  unfold NoStructFallback
  infer_instance

/-! ### Concrete states used by witnesses and counterexamples -/

/-- The freshly constructed element: no attributes, no structured object. -/
def st0 : ElemState := {}

/-- A summary whose single genre display name is the numeral string `1`. -/
def c1CEObj : Summary := { genres := some [.gname "1"] }

/-- A round-trip witness input. -/
def c1Obj : Summary :=
  { id := some "p1", title := some "T", image := some "img",
    genres := some [.gid 1, .gname "History"], seasons := some 2,
    updated := some "2025-01-01", description := some "desc" }

/-- Declared seasons absent while the structured state holds 5. -/
def c2CESt : ElemState := { attrs := {}, data := some { seasons := some 5 } }

/-- A state whose genres attribute holds a numeric and a name token. -/
def c3St : ElemState := { attrs := { genres := some "1, History" } }

/-- A state whose parsed genres start with a numeric token. -/
def c4St : ElemState := { attrs := { genres := some "1,History" } }

/-- A collaborator assembly for concrete runs: the resolver tags resolved
names, dates format to themselves, season lookup is empty. -/
def demoCollab : Collab where
  getNames := fun l => l.map fun g => "name-of-" ++ g.toDisplay
  dateFmt := fun s => s
  seasonLookup := fun _ => []

/-- A closed world: two attached nodes, node 3 focused, modal closed. -/
def w0 : World where
  doc := { attached := [.closeBtn, .node 3], active := some (.node 3) }
  modal := {}

/-- Two selection payloads for re-entrant open. -/
def vmA : ViewModel :=
  { id := "a", title := "A", image := "", genres := [], seasons := .fin 0,
    updated := "", description := "" }

/-- Second payload. -/
def vmB : ViewModel :=
  { id := "b", title := "B", image := "", genres := [.str "History"], seasons := .fin 1,
    updated := "", description := "descB" }

/-- A variant-A element after `title="T"` and `seasons="2"`. -/
def c7ElemA : ElemA := setAttrA (setAttrA ⟨{}, ""⟩ .title "T") .seasons "2"

/-- A state with `title="T"` and `seasons="2"`. -/
def c7St : ElemState := { attrs := { title := some "T", seasons := some "2" } }

/-- Non-numeric declared seasons with no structured state. -/
def c9St : ElemState := { attrs := { seasons := some "oops" } }

/-- Non-numeric declared seasons shadowed by structured seasons 7. -/
def c9CESt : ElemState := { attrs := { seasons := some "abc" }, data := some { seasons := some 7 } }

/-- Fully declared state with a retained description. -/
def c10St : ElemState :=
  { attrs := { pid := some "a", title := some "t", image := some "i",
               genres := some "1", seasons := some "2", updated := some "u" },
    data := some { description := some "d" } }

/-- A state whose seasons read depends on the structured fallback. -/
def c10CESt : ElemState :=
  { attrs := { seasons := some "abc" },
    data := some { seasons := some 5, description := some "d" } }

/-! ### Digit and printing lemmas -/

theorem digitVal_digitChar {d : Nat} (h : d < 10) : digitVal (digitChar d) = d := by
  interval_cases d <;> decide

theorem digitChar_isDigit {d : Nat} (h : d < 10) : (digitChar d).isDigit = true := by
  interval_cases d <;> decide

theorem natDigitsAux_mem {fuel n : Nat} {c : Char} (h : c ∈ natDigitsAux fuel n) :
    ∃ d, d < 10 ∧ c = digitChar d := by
  induction fuel generalizing n with
  | zero => simp [natDigitsAux] at h
  | succ fuel ih =>
    unfold natDigitsAux at h
    by_cases h10 : n < 10
    · rw [if_pos h10] at h
      simp at h
      exact ⟨n, h10, h⟩
    · rw [if_neg h10] at h
      rcases List.mem_append.mp h with h1 | h1
      · exact ih h1
      · simp at h1
        exact ⟨n % 10, Nat.mod_lt _ (by omega), h1⟩

theorem mem_natDigits_isDigit {n : Nat} {c : Char} (h : c ∈ natDigits n) : c.isDigit = true := by
  obtain ⟨d, hd, rfl⟩ := natDigitsAux_mem h
  exact digitChar_isDigit hd

theorem isDigit_ne {c x : Char} (h : c.isDigit = true) (hx : x.isDigit = false) : c ≠ x := by
  intro he
  rw [he, hx] at h
  exact Bool.noConfusion h

theorem isDigit_not_ws {c : Char} (h : c.isDigit = true) : c.isWhitespace = false := by
  by_contra hws
  rw [Bool.not_eq_false] at hws
  simp only [Char.isWhitespace, Bool.or_eq_true, decide_eq_true_eq] at hws
  rcases hws with ((h1 | h1) | h1) | h1 <;> (subst h1; exact Bool.noConfusion h)

theorem digitsVal_append (l : List Char) (c : Char) :
    digitsVal (l ++ [c]) = 10 * digitsVal l + digitVal c := by
  simp [digitsVal, List.foldl_append]

theorem digitsVal_natDigitsAux {fuel n : Nat} (h : n < fuel) :
    digitsVal (natDigitsAux fuel n) = n := by
  induction fuel generalizing n with
  | zero => omega
  | succ fuel ih =>
    unfold natDigitsAux
    by_cases h10 : n < 10
    · rw [if_pos h10]
      simp [digitsVal, digitVal_digitChar h10]
    · rw [if_neg h10]
      have hdiv : n / 10 < n := Nat.div_lt_self (by omega) (by omega)
      rw [digitsVal_append, ih (by omega), digitVal_digitChar (Nat.mod_lt _ (by omega))]
      omega

theorem digitsVal_natDigits (n : Nat) : digitsVal (natDigits n) = n :=
  digitsVal_natDigitsAux (Nat.lt_succ_self n)

theorem natDigits_ne_nil (n : Nat) : natDigits n ≠ [] := by
  unfold natDigits natDigitsAux
  split
  · simp
  · simp

theorem natDigitsAux_head {fuel n : Nat} (hf : n < fuel) (hn : n ≠ 0) :
    ∃ c cs, natDigitsAux fuel n = c :: cs ∧ c ≠ '0' := by
  induction fuel generalizing n with
  | zero => omega
  | succ fuel ih =>
    unfold natDigitsAux
    by_cases h10 : n < 10
    · rw [if_pos h10]
      refine ⟨digitChar n, [], rfl, ?_⟩
      interval_cases n <;> simp_all <;> decide
    · rw [if_neg h10]
      have hdiv : n / 10 < n := Nat.div_lt_self (by omega) (by omega)
      obtain ⟨c, cs, heq, hc⟩ := ih (n := n / 10) (by omega) (by omega)
      exact ⟨c, cs ++ [digitChar (n % 10)], by rw [heq]; rfl, hc⟩

/-! ### Trim and split lemmas -/

theorem dropWhile_ws_eq_self {l : List Char} (h : ∀ c ∈ l, c.isWhitespace = false) :
    l.dropWhile Char.isWhitespace = l := by
  cases l with
  | nil => rfl
  | cons c cs =>
    rw [List.dropWhile_cons, h c (List.mem_cons_self c cs)]
    simp

theorem trimChars_eq_self {l : List Char} (h : ∀ c ∈ l, c.isWhitespace = false) :
    trimChars l = l := by
  unfold trimChars
  rw [dropWhile_ws_eq_self h, dropWhile_ws_eq_self (by simpa using fun c hc => h c hc),
    List.reverse_reverse]

theorem splitFirst_eq_of_all {p : Char → Bool} {l : List Char} (h : ∀ c ∈ l, p c = false) :
    splitFirst p l = (l, none) := by
  induction l with
  | nil => rfl
  | cons c cs ih =>
    unfold splitFirst
    rw [h c (List.mem_cons_self c cs), ih (fun x hx => h x (List.mem_cons_of_mem c hx))]
    simp

theorem splitCommaAux_nocomma {p : List Char} (acc : List Char) (hp : ',' ∉ p) :
    splitCommaAux p acc = [acc.reverse ++ p] := by
  induction p generalizing acc with
  | nil => simp [splitCommaAux]
  | cons c cs ih =>
    have hc : c ≠ ',' := fun he => hp (he ▸ List.mem_cons_self c cs)
    rw [splitCommaAux, if_neg hc, ih (c :: acc) (fun hm => hp (List.mem_cons_of_mem c hm))]
    simp

theorem splitCommaAux_comma {p : List Char} (rest acc : List Char) (hp : ',' ∉ p) :
    splitCommaAux (p ++ ',' :: rest) acc = (acc.reverse ++ p) :: splitCommaAux rest [] := by
  induction p generalizing acc with
  | nil => simp [splitCommaAux]
  | cons c cs ih =>
    have hc : c ≠ ',' := fun he => hp (he ▸ List.mem_cons_self c cs)
    rw [List.cons_append, splitCommaAux, if_neg hc,
      ih (c :: acc) (fun hm => hp (List.mem_cons_of_mem c hm))]
    simp

theorem splitCommaAux_joinCommaChars {parts : List (List Char)} (hne : parts ≠ [])
    (h : ∀ p ∈ parts, ',' ∉ p) :
    splitCommaAux (joinCommaChars parts) [] = parts := by
  induction parts with
  | nil => exact absurd rfl hne
  | cons x xs ih =>
    cases xs with
    | nil =>
      rw [joinCommaChars, splitCommaAux_nocomma [] (h x (List.mem_cons_self x []))]
      rfl
    | cons y ys =>
      rw [joinCommaChars, splitCommaAux_comma _ [] (h x (List.mem_cons_self x _))]
      rw [ih (by simp) (fun p hp => h p (List.mem_cons_of_mem x hp))]
      rfl

theorem string_mk_data (s : String) : (⟨s.data⟩ : String) = s := rfl

/-! ### The `Number` round-trip on printed integers -/

theorem parseDec_digits {l : List Char} (hne : l ≠ []) (hd : ∀ c ∈ l, c.isDigit = true) :
    parseDec l = some ((digitsVal l : ℚ)) := by
  have hE : ∀ c ∈ l, (fun c => c = 'e' || c = 'E') c = false := by
    intro c hc
    have h1 : c ≠ 'e' := isDigit_ne (hd c hc) (by decide)
    have h2 : c ≠ 'E' := isDigit_ne (hd c hc) (by decide)
    simp [h1, h2]
  have hD : ∀ c ∈ l, (fun c => decide (c = '.')) c = false := by
    intro c hc
    have h1 : c ≠ '.' := isDigit_ne (hd c hc) (by decide)
    simp [h1]
  unfold parseDec
  rw [splitFirst_eq_of_all hE]
  show decOfParts l none = some ((digitsVal l : ℚ))
  simp only [decOfParts]
  unfold parseMantissa
  rw [splitFirst_eq_of_all hD]
  show mantissaOfParts l none = some ((digitsVal l : ℚ))
  simp only [mantissaOfParts]
  rw [if_pos]
  simp only [Bool.and_eq_true, Bool.not_eq_true, List.all_eq_true]
  refine ⟨?_, hd⟩
  simp [List.isEmpty_iff, hne]

theorem unsignedDec_digits {l : List Char} (neg : Bool) (hne : l ≠ [])
    (hd : ∀ c ∈ l, c.isDigit = true) :
    unsignedDec l neg = .fin (if neg then -(digitsVal l : ℚ) else (digitsVal l : ℚ)) := by
  have hInf : l ≠ infinityChars := by
    intro he
    have := hd 'I' (by rw [he]; decide)
    exact absurd this (by decide)
  unfold unsignedDec
  rw [if_neg hInf, parseDec_digits hne hd]

theorem radixBranch_eq_none {c : Char} {cs : List Char} (hc0 : c ≠ '0') :
    radixBranch (c :: cs) = none := by
  cases cs with
  | nil => rfl
  | cons x xs =>
    simp only [radixBranch]
    rw [if_neg hc0]

theorem strToNumChars_digits (n : Nat) : strToNumChars (natDigits n) = .fin (n : ℚ) := by
  by_cases h0 : n = 0
  · subst h0
    decide
  · have hd : ∀ c ∈ natDigits n, c.isDigit = true := fun c hc => mem_natDigits_isDigit hc
    have hw : ∀ c ∈ natDigits n, c.isWhitespace = false := fun c hc => isDigit_not_ws (hd c hc)
    obtain ⟨c, cs, heq, hc0⟩ := natDigitsAux_head (Nat.lt_succ_self n) h0
    have heq2 : natDigits n = c :: cs := heq
    unfold strToNumChars
    rw [trimChars_eq_self hw]
    rw [if_neg (by simp [heq2])]
    rw [heq2, radixBranch_eq_none hc0]
    have hcd : c.isDigit = true := hd c (by rw [heq2]; exact List.mem_cons_self c cs)
    simp only [signedDec]
    rw [if_neg (isDigit_ne hcd (by decide)), if_neg (isDigit_ne hcd (by decide))]
    rw [unsignedDec_digits false (by simp) (by rw [← heq2]; exact hd)]
    rw [← heq2, digitsVal_natDigits]
    simp

theorem strToNum_natToString (n : Nat) : strToNum (natToString n) = .fin (n : ℚ) :=
  strToNumChars_digits n

theorem strToNum_intToString (k : Int) : strToNum (intToString k) = .fin (k : ℚ) := by
  by_cases hk : k < 0
  · have hd : ∀ c ∈ natDigits k.natAbs, c.isDigit = true := fun c hc => mem_natDigits_isDigit hc
    have hstr : strToNum (intToString k) = strToNumChars ('-' :: natDigits k.natAbs) := by
      unfold intToString
      rw [if_pos hk]
      rfl
    rw [hstr]
    unfold strToNumChars
    rw [trimChars_eq_self ?hws]
    case hws =>
      intro c hc
      rcases List.mem_cons.mp hc with h1 | h1
      · subst h1; decide
      · exact isDigit_not_ws (hd c h1)
    rw [if_neg (by simp)]
    rw [radixBranch_eq_none (by decide)]
    simp only [signedDec]
    rw [if_neg (by decide), if_pos trivial]
    rw [unsignedDec_digits true (natDigits_ne_nil _) hd]
    rw [digitsVal_natDigits]
    have h1 : ((k.natAbs : ℤ)) = -k := by omega
    have h2 : ((k.natAbs : ℚ)) = -(k : ℚ) := by
      have h3 : (((k.natAbs : ℤ) : ℚ)) = ((k.natAbs : ℚ)) := Int.cast_natCast k.natAbs
      rw [← h3, h1, Int.cast_neg]
    rw [if_pos rfl, h2, neg_neg]
  · have hstr : strToNum (intToString k) = strToNumChars (natDigits k.natAbs) := by
      unfold intToString
      rw [if_neg hk]
      rfl
    rw [hstr, strToNumChars_digits]
    have h1 : ((k.natAbs : ℤ)) = k := by omega
    have h2 : ((k.natAbs : ℚ)) = (k : ℚ) := by
      have h3 : (((k.natAbs : ℤ) : ℚ)) = ((k.natAbs : ℚ)) := Int.cast_natCast k.natAbs
      rw [← h3, h1]
    rw [h2]

theorem decToString_natCast (n : Nat) : decToString ((n : ℚ)) = natToString n := by
  unfold decToString
  rw [if_pos (Rat.den_natCast n)]
  rw [Rat.num_natCast]
  unfold intToString
  rw [if_neg (by omega)]
  simp [natToString, Int.natAbs_ofNat]

/-! ### The genre attribute round-trip -/

theorem intToString_data (k : Int) :
    (intToString k).data = if k < 0 then '-' :: natDigits k.natAbs else natDigits k.natAbs := by
  unfold intToString
  split <;> rfl

theorem intToString_data_no_ws (k : Int) :
    ∀ c ∈ (intToString k).data, c.isWhitespace = false := by
  intro c hc
  rw [intToString_data] at hc
  split at hc
  · rcases List.mem_cons.mp hc with h1 | h1
    · subst h1; decide
    · exact isDigit_not_ws (mem_natDigits_isDigit h1)
  · exact isDigit_not_ws (mem_natDigits_isDigit hc)

theorem trimS_intToString (k : Int) : trimS (intToString k) = intToString k := by
  unfold trimS
  rw [trimChars_eq_self (intToString_data_no_ws k)]

theorem string_ne_empty_of_data {s : String} (h : s.data ≠ []) : s ≠ "" :=
  fun he => h (by rw [he])

theorem intToString_ne_empty (k : Int) : intToString k ≠ "" := by
  apply string_ne_empty_of_data
  rw [intToString_data]
  split
  · simp
  · exact natDigits_ne_nil _

theorem comma_not_mem_intToString (k : Int) : ',' ∉ (intToString k).data := by
  intro hc
  rw [intToString_data] at hc
  have hdig : (',' : Char).isDigit = true := by
    split at hc
    · rcases List.mem_cons.mp hc with h1 | h1
      · exact absurd h1.symm (by decide)
      · exact mem_natDigits_isDigit h1
    · exact mem_natDigits_isDigit hc
  exact absurd hdig (by decide)

theorem classify_intToString (k : Int) : classify (intToString k) = .num (.fin (k : ℚ)) := by
  unfold classify
  rw [strToNum_intToString]

theorem classify_nan {s : String} (h : strToNum s = .nan) : classify s = .str s := by
  unfold classify
  rw [h]

theorem classify_toJoinString {g : SGenre} (h : GoodGenre g) :
    classify g.toJoinString = g.toGVal := by
  cases g with
  | gid k => exact classify_intToString k
  | gname s => exact classify_nan h.2.2.2

theorem trimS_toJoinString {g : SGenre} (h : GoodGenre g) : trimS g.toJoinString = g.toJoinString := by
  cases g with
  | gid k => exact trimS_intToString k
  | gname s => exact h.2.1

theorem toJoinString_ne_empty {g : SGenre} (h : GoodGenre g) : g.toJoinString ≠ "" := by
  cases g with
  | gid k => exact intToString_ne_empty k
  | gname s => exact h.1

theorem comma_not_mem_toJoinString {g : SGenre} (h : GoodGenre g) :
    ',' ∉ g.toJoinString.data := by
  cases g with
  | gid k => exact comma_not_mem_intToString k
  | gname s => exact h.2.2.1

theorem splitComma_joinComma {parts : List String} (hne : parts ≠ [])
    (h : ∀ p ∈ parts, ',' ∉ p.data) : splitComma (joinComma parts) = parts := by
  unfold splitComma joinComma
  have hdata : (⟨joinCommaChars (parts.map String.data)⟩ : String).data
      = joinCommaChars (parts.map String.data) := rfl
  rw [hdata]
  rw [splitCommaAux_joinCommaChars (by simpa using hne) ?hcm]
  case hcm =>
    intro p hp
    obtain ⟨s, hs, rfl⟩ := List.mem_map.mp hp
    exact h s hs
  rw [List.map_map]
  have : ∀ s ∈ parts, ((fun l => (⟨l⟩ : String)) ∘ String.data) s = id s := by
    intro s _
    exact string_mk_data s
  rw [List.map_congr_left this, List.map_id]

theorem parseGenres_join {l : List SGenre} (h : ∀ g ∈ l, GoodGenre g) :
    parseGenres (joinComma (l.map SGenre.toJoinString)) = l.map SGenre.toGVal := by
  cases l with
  | nil => decide
  | cons g gs =>
    unfold parseGenres
    rw [splitComma_joinComma (by simp) ?hcm]
    case hcm =>
      intro p hp
      obtain ⟨x, hx, rfl⟩ := List.mem_map.mp hp
      exact comma_not_mem_toJoinString (h x hx)
    rw [List.map_map]
    have htrim : ∀ x ∈ g :: gs, (trimS ∘ SGenre.toJoinString) x = SGenre.toJoinString x := by
      intro x hx
      exact trimS_toJoinString (h x hx)
    rw [List.map_congr_left htrim]
    rw [List.filter_eq_self.mpr ?hfil]
    case hfil =>
      intro s hs
      obtain ⟨x, hx, rfl⟩ := List.mem_map.mp hs
      simpa using toJoinString_ne_empty (h x hx)
    rw [List.map_map]
    apply List.map_congr_left
    intro x hx
    exact classify_toJoinString (h x hx)

/-! ### Generic view-model helpers -/

theorem vmExt {a b : ViewModel} (h1 : a.id = b.id) (h2 : a.title = b.title)
    (h3 : a.image = b.image) (h4 : a.genres = b.genres) (h5 : a.seasons = b.seasons)
    (h6 : a.updated = b.updated) (h7 : a.description = b.description) : a = b := by
  cases a
  cases b
  simp only at h1 h2 h3 h4 h5 h6 h7
  subst h1 h2 h3 h4 h5 h6 h7
  rfl

theorem orNE_eq_firstNonEmpty2 (a b : Option String) :
    orNE a (orNE b "") = firstNonEmpty2 a b := by
  unfold orNE firstNonEmpty2
  cases a with
  | none =>
    cases b with
    | none => rfl
    | some s => by_cases hs : s = "" <;> simp [hs, Option.filter]
  | some s =>
    by_cases hs : s = ""
    · cases b with
      | none => simp [hs, Option.filter]
      | some t => by_cases ht : t = "" <;> simp [hs, ht, Option.filter]
    · simp [hs, Option.filter]

theorem readGenres_eq_spec (st : ElemState) : readGenres st = specGenresRead st := by
  unfold readGenres specGenresRead parseGenres
  cases st.attrs.genres <;> rfl

theorem readInt_eq_spec (st : ElemState) : readInt st = specSeasonsRead st := by
  unfold readInt specSeasonsRead
  cases h : st.attrs.seasons with
  | none => simp [jsNumOfAttr, JsNum.isFinite]
  | some v =>
    cases hv : strToNum v with
    | nan => simp [jsNumOfAttr, hv, JsNum.isFinite]
    | inf b => simp [jsNumOfAttr, hv, JsNum.isFinite]
    | fin q => simp [jsNumOfAttr, hv, JsNum.isFinite]

/-! ### Claim theorems -/

/-- C8: a single key-down of Enter or of Space on a focused preview element
emits exactly one bubbling, composed `podcast-select` event whose payload is
the current view model, prevents the key's default (so Space cannot
scroll), leaves every other key inert, and two consecutive activations
yield two independent events with no debouncing. -/
theorem c8_activation_emits_once (st : ElemState) :
    (keydown st "Enter").events = [selectEvent st]
    ∧ (keydown st " ").events = [selectEvent st]
    ∧ (keydown st " ").defaultPrevented = true
    ∧ (keydown st "a").events = []
    ∧ (selectEvent st).name = "podcast-select"
    ∧ (selectEvent st).bubbles = true
    ∧ (selectEvent st).composed = true
    ∧ (selectEvent st).detail = getValue st
    ∧ keySequenceEvents st ["Enter", " "] = [selectEvent st, selectEvent st]
    ∧ (keySequenceEvents st ["Enter", " "]).length = 2 := by
  refine ⟨rfl, rfl, rfl, rfl, rfl, rfl, rfl, rfl, rfl, rfl⟩

/-- C4: in both renderers (the preview's `_render` and the modal's
`updateContent`), the parsed genre list is resolved through the genre
resolver as a whole exactly when the first token is numeric, and rendered
verbatim otherwise; the output is always one of the two whole-list forms,
never a partial mix. -/
theorem c4_first_token_resolution (c : Collab) (st : ElemState) :
    previewTags c st = modalTags c (getValue st)
    ∧ (numHead (getValue st).genres = true →
        previewTags c st = c.getNames (getValue st).genres)
    ∧ (numHead (getValue st).genres = false →
        previewTags c st = ((getValue st).genres).map GVal.toDisplay)
    ∧ (previewTags c st = c.getNames (getValue st).genres
        ∨ previewTags c st = ((getValue st).genres).map GVal.toDisplay) := by
  unfold previewTags modalTags resolveTags numHead
  cases hg : (getValue st).genres with
  | nil => exact ⟨rfl, fun hc => Bool.noConfusion hc, fun _ => rfl, Or.inr rfl⟩
  | cons a rest =>
    cases a with
    | num v => exact ⟨rfl, fun _ => rfl, fun hc => Bool.noConfusion hc, Or.inl rfl⟩
    | str s => exact ⟨rfl, fun hc => Bool.noConfusion hc, fun _ => rfl, Or.inr rfl⟩

/-- C4 witness: on a state whose genres attribute is `1,History`, the first
parsed token is numeric and the preview hands the whole list to the
resolver. -/
theorem c4_first_token_resolution_witness :
    previewTags demoCollab c4St = demoCollab.getNames (getValue c4St).genres :=
  (c4_first_token_resolution demoCollab c4St).2.1 (by decide)

/-- C6: `close()` hides the dialog, clears its visibility flag, deregisters
the Escape listener, clears the remembered focus target, and restores focus
to that target exactly when it is still attached to the document (a
detached target leaves focus where it was, without error). -/
theorem c6_close_restores_focus_iff_attached (w : World) (h : w.modal.hiddenClass = false) :
    (closeModal w).modal.hiddenClass = true
    ∧ (closeModal w).modal.ariaHidden = true
    ∧ (closeModal w).modal.escListeners = 0
    ∧ (closeModal w).modal.lastFocus = none
    ∧ (∀ e, w.modal.lastFocus = some e → e ∈ w.doc.attached →
        (closeModal w).doc.active = some e)
    ∧ (∀ e, w.modal.lastFocus = some e → e ∉ w.doc.attached →
        (closeModal w).doc.active = w.doc.active)
    ∧ (w.modal.lastFocus = none → (closeModal w).doc.active = w.doc.active) := by
  refine ⟨rfl, rfl, rfl, rfl, ?_, ?_, ?_⟩
  · intro e he hmem
    unfold closeModal
    rw [he]
    simp [hmem]
  · intro e he hmem
    unfold closeModal
    rw [he]
    simp [hmem]
  · intro he
    unfold closeModal
    rw [he]

/-- C6 witness: closing the demo world (opened with node 3 focused before
the open) moves focus back to node 3, which is still attached. -/
theorem c6_close_restores_focus_iff_attached_witness :
    (closeModal (openModal demoCollab w0 vmA)).doc.active = some (.node 3) :=
  (c6_close_restores_focus_iff_attached (openModal demoCollab w0 vmA) rfl).2.2.2.2.1
    (.node 3) rfl (by decide)

/-- C5: re-entrant `open(A)` then `open(B)` without a `close()` leaves the
dialog content derived from B alone, focus on the close control, and
exactly one registered Escape listener, so a single Escape press invokes
`close()` exactly once and leaves the dialog hidden. -/
theorem c5_reentrant_open (c : Collab) (w : World) (A B : ViewModel)
    (h : w.modal.escListeners ≤ 1) :
    (openModal c (openModal c w A) B).modal.content = some (updateContent c B)
    ∧ (openModal c (openModal c w A) B).doc.active = some .closeBtn
    ∧ (openModal c (openModal c w A) B).modal.escListeners = 1
    ∧ (pressEscape (openModal c (openModal c w A) B)).2 = 1
    ∧ (pressEscape (openModal c (openModal c w A) B)).1.modal.hiddenClass = true
    ∧ (pressEscape (openModal c (openModal c w A) B)).1.modal.escListeners = 0 := by
  have hesc : (openModal c (openModal c w A) B).modal.escListeners = 1 := by
    show addTrapKey (addTrapKey w.modal.escListeners) = 1
    unfold addTrapKey
    rcases Nat.le_one_iff_eq_zero_or_eq_one.mp h with h0 | h1
    · simp [h0]
    · simp [h1]
  refine ⟨rfl, rfl, hesc, ?_, ?_, ?_⟩
  · unfold pressEscape
    rw [hesc]
  · unfold pressEscape
    rw [hesc, Function.iterate_one]
    rfl
  · unfold pressEscape
    rw [hesc, Function.iterate_one]
    rfl

/-- C5 witness: in the demo world the double open leaves one listener and
one Escape press performs exactly one close. -/
theorem c5_reentrant_open_witness :
    (openModal demoCollab (openModal demoCollab w0 vmA) vmB).modal.content
      = some (updateContent demoCollab vmB)
    ∧ (pressEscape (openModal demoCollab (openModal demoCollab w0 vmA) vmB)).2 = 1 := by
  have h := c5_reentrant_open demoCollab w0 vmA vmB (by decide)
  exact ⟨h.1, h.2.2.2.1⟩

/-- C9 counterexample: with declared `seasons="abc"` and a retained
structured object holding seasons 7, the view model reports 7, not the 0
the claim requires for every non-numeric declared value. -/
theorem c9_counterexample :
    strToNum "abc" = .nan
    ∧ (getValue c9CESt).seasons = .fin 7
    ∧ JsNum.fin 7 ≠ .fin 0 := by
  refine ⟨by decide, by decide, by decide⟩

/-- C9 (amended): a non-numeric declared seasons value makes the view model
report the retained structured seasons field; only when no structured
fallback is retained does it degrade to 0. -/
theorem c9_nonnumeric_seasons (st : ElemState) (v : String)
    (h1 : st.attrs.seasons = some v) (h2 : strToNum v = .nan) :
    (getValue st).seasons = .fin ((st.data.bind fun d => d.seasons).getD 0 : ℚ)
    ∧ (st.data = none → (getValue st).seasons = .fin 0) := by
  have key : (getValue st).seasons = .fin ((st.data.bind fun d => d.seasons).getD 0 : ℚ) := by
    show readInt st = _
    simp [readInt, jsNumOfAttr, h1, h2, JsNum.isFinite]
  refine ⟨key, fun hd => ?_⟩
  rw [key, hd]
  simp

/-- C9 witness: with `seasons="oops"` and no structured object the view
model reports 0. -/
theorem c9_nonnumeric_seasons_witness : (getValue c9St).seasons = .fin 0 :=
  (c9_nonnumeric_seasons c9St "oops" rfl (by decide)).2 rfl

/-- C2 counterexample: the claim's fallback rule says an absent declared
seasons value exposes the structured field (here 5), but the code reads an
absent seasons attribute as `Number(null) = 0`, which is finite, and never
consults the structured state. -/
theorem c2_counterexample :
    c2CESt.attrs.seasons = none
    ∧ claimC2SeasonsRead c2CESt = .fin 5
    ∧ (getValue c2CESt).seasons = .fin 0
    ∧ JsNum.fin 0 ≠ .fin 5 := by
  refine ⟨rfl, by decide, by decide, by decide⟩

/-- C2 (amended): the view model reads, for the string-valued keys, the
declared value when present and non-empty, else the non-empty structured
field, else the empty string; genres are parsed from the declared
attribute whenever it is present (even empty) and fall back to the
structured list only when absent; seasons take the declared value when it
parses to a finite number — an absent attribute counts as 0 and never
consults the structured state — and fall back to the structured field only
for a present, unparseable declared value. -/
theorem c2_precedence (st : ElemState) :
    getValue st =
      { id := firstNonEmpty2 st.attrs.pid (st.data.bind fun d => d.id)
        title := firstNonEmpty2 st.attrs.title (st.data.bind fun d => d.title)
        image := firstNonEmpty2 st.attrs.image (st.data.bind fun d => d.image)
        genres := specGenresRead st
        seasons := specSeasonsRead st
        updated := firstNonEmpty2 st.attrs.updated (st.data.bind fun d => d.updated)
        description := firstNonEmpty2 (st.data.bind fun d => d.description) none } := by
  apply vmExt
  · exact orNE_eq_firstNonEmpty2 st.attrs.pid (st.data.bind fun d => d.id)
  · exact orNE_eq_firstNonEmpty2 st.attrs.title (st.data.bind fun d => d.title)
  · exact orNE_eq_firstNonEmpty2 st.attrs.image (st.data.bind fun d => d.image)
  · exact readGenres_eq_spec st
  · exact readInt_eq_spec st
  · exact orNE_eq_firstNonEmpty2 st.attrs.updated (st.data.bind fun d => d.updated)
  · exact orNE_eq_firstNonEmpty2 (st.data.bind fun d => d.description) none

/-- C3 counterexample: the token `1.5` parses as a decimal number, yet the
produced token carries the non-integer value 1 + 5/10 — neither an integer
coercion nor a kept string, contrary to the claim. -/
theorem c3_counterexample :
    ¬ ∀ tok ∈ parseGenres "1.5", IsIntOrStrToken tok := by
  intro h
  have hparse : parseGenres "1.5"
      = [.num (.fin (((1 : Nat) : ℚ) + ((5 : Nat) : ℚ) / (10 : ℚ) ^ (1 : Nat)))] := by
    rfl
  have hmem : IsIntOrStrToken
      (.num (.fin (((1 : Nat) : ℚ) + ((5 : Nat) : ℚ) / (10 : ℚ) ^ (1 : Nat)))) := by
    apply h
    rw [hparse]
    simp
  obtain ⟨k, hk⟩ := hmem
  have h2 : ((2 * k : ℤ) : ℚ) = ((3 : ℤ) : ℚ) := by
    push_cast
    rw [← hk]
    norm_num
  have h3 : (2 * k : ℤ) = 3 := by exact_mod_cast h2
  omega

/-- C3 (amended): the genres read splits the declared string on commas,
trims each token, drops empty tokens, and classifies each remaining token
by JS number parsing: a decimal integer numeral becomes exactly that
integer, a token that does not parse at all stays a string, and any other
numeric form becomes its (possibly non-integer) numeric value; the same
pipeline is what the view model exposes whenever the attribute is
present. -/
theorem c3_genre_parse (st : ElemState) (raw : String) (h : st.attrs.genres = some raw) :
    (getValue st).genres
      = (((splitComma raw).map trimS).filter (fun s => s != "")).map classify
    ∧ (∀ n : Nat, classify (natToString n) = .num (.fin (n : ℚ)))
    ∧ (∀ t : String, strToNum t = .nan → classify t = .str t)
    ∧ (∀ (t : String) (q : ℚ), strToNum t = .fin q → classify t = .num (.fin q)) := by
  refine ⟨?_, ?_, ?_, ?_⟩
  · show readGenres st = _
    unfold readGenres
    rw [h]
    rfl
  · intro n
    unfold classify
    rw [strToNum_natToString]
  · intro t ht
    exact classify_nan ht
  · intro t q ht
    unfold classify
    rw [ht]

/-- C3 witness: on `genres="1, History"` the parse yields the integer 1
followed by the verbatim string token. -/
theorem c3_genre_parse_witness :
    (getValue c3St).genres = [.num (.fin 1), .str "History"] := by
  rw [(c3_genre_parse c3St "1, History" rfl).1]
  decide

theorem string_data_append (a b : String) : (a ++ b).data = a.data ++ b.data := by
  cases a
  cases b
  rfl

theorem specC7SeasonsPart_ne_empty (n : Nat) : specC7SeasonsPart n ≠ "" := by
  apply string_ne_empty_of_data
  unfold specC7SeasonsPart
  rw [string_data_append, string_data_append]
  simp

/-- C7 counterexample: the variant in src/src/components/PodcastPreview.js
labels the element `Open details for “T”` after `title="T"` and
`seasons="2"`, not the claimed `T — 2 seasons`. -/
theorem c7_counterexample :
    c7ElemA.aria = "Open details for “T”"
    ∧ c7ElemA.aria ≠ specC7Label "T" 2
    ∧ specC7Label "T" 2 = "T — 2 seasons" := by
  refine ⟨by decide, by decide, by decide⟩

/-- C7 (amended): in the part_001 variant the applied label is the resolved
title alone when the season count is 0 and `<title> — N season(s)` with
correct pluralization otherwise, and it is recomputed on every attribute
change and every non-null structured assignment; the
src/src/components variant instead always applies
`Open details for “<title>”`. -/
theorem c7_aria_label (st : ElemState) (t : String) (n : Nat)
    (h1 : resolvedTitleB st = t) (h2 : readInt st = .fin ((n : Nat) : ℚ)) :
    ariaLabelB st = specC7Label t n
    ∧ (∀ (e : ElemB) (k : AttrKey) (v : String),
        (setAttrB e k v).aria = ariaLabelB (setAttr e.st k v))
    ∧ (∀ (e : ElemB) (o : Summary),
        (setDataB e (some o)).aria = ariaLabelB (setData e.st (some o)))
    ∧ (∀ (e : ElemA) (k : AttrKey) (v : String),
        (setAttrA e k v).aria = ariaLabelA (setAttr e.st k v))
    ∧ (∀ (e : ElemA) (o : Option Summary),
        (setDataA e o).aria = ariaLabelA (setData e.st o)) := by
  refine ⟨?_, fun e k v => rfl, fun e o => rfl, fun e k v => rfl, fun e o => rfl⟩
  have hsl : seasonsLabelB st = if n = 0 then "" else specC7SeasonsPart n := by
    unfold seasonsLabelB
    rw [h2]
    show (if ((n : Nat) : ℚ) = 0 then "" else _) = _
    by_cases h0 : n = 0
    · subst h0
      rw [if_pos (by norm_num), if_pos rfl]
    · have hq : ((n : Nat) : ℚ) ≠ 0 := by exact_mod_cast h0
      rw [if_neg hq, if_neg h0, decToString_natCast]
      unfold specC7SeasonsPart
      have hs : (if (1 : ℚ) < ((n : Nat) : ℚ) then "s" else "") = (if 2 ≤ n then "s" else "") := by
        by_cases hn : 2 ≤ n
        · rw [if_pos (by exact_mod_cast hn), if_pos hn]
        · rw [if_neg (by exact_mod_cast hn), if_neg hn]
      rw [hs]
  unfold ariaLabelB specC7Label
  rw [hsl, h1]
  by_cases h0 : n = 0
  · rw [if_pos h0, if_pos h0, if_pos rfl]
  · rw [if_neg h0, if_neg h0, if_neg (specC7SeasonsPart_ne_empty n)]

/-- C7 witness: on `title="T"`, `seasons="2"` the part_001 label is
`T — 2 seasons`. -/
theorem c7_aria_label_witness : ariaLabelB c7St = "T — 2 seasons" := by
  rw [(c7_aria_label c7St "T" 2 (by decide) (by decide)).1]
  decide

/-! ### C10: clearing the structured object -/

theorem orNE_struct_drop {a f : Option String} (h : orNE a "" ≠ "" ∨ orNE f "" = "") :
    orNE a (orNE f "") = orNE a "" := by
  cases a with
  | none =>
    rcases h with h | h
    · exact absurd rfl h
    · exact h
  | some s =>
    by_cases hs : s = ""
    · subst hs
      rcases h with h | h
      · exact absurd (by simp [orNE]) h
      · exact h
    · simp [orNE, hs]

theorem readInt_drop {st : ElemState}
    (h : (jsNumOfAttr st.attrs.seasons).isFinite = true
      ∨ (st.data.bind fun d => d.seasons).getD 0 = 0) :
    readInt { attrs := st.attrs, data := none } = readInt st := by
  unfold readInt
  cases hf : (jsNumOfAttr st.attrs.seasons).isFinite with
  | true => simp [hf]
  | false =>
    rcases h with h | h
    · rw [h] at hf
      exact absurd hf (by simp)
    · simp [hf, h]

theorem readGenres_drop {st : ElemState}
    (h : st.attrs.genres ≠ none ∨ (st.data.bind fun d => d.genres).getD [] = []) :
    readGenres { attrs := st.attrs, data := none } = readGenres st := by
  unfold readGenres
  cases hg : st.attrs.genres with
  | none =>
    rcases h with h | h
    · exact absurd hg h
    · simp [h]
  | some raw => rfl

/-- C10 counterexample: with `seasons="abc"` and structured seasons 5,
clearing the structured object changes the seasons read (5 becomes 0), so
the view model does not stay equal up to the description field. -/
theorem c10_counterexample :
    (setData c10CESt none).attrs = c10CESt.attrs
    ∧ (getValue c10CESt).seasons = .fin 5
    ∧ (getValue (setData c10CESt none)).seasons = .fin 0
    ∧ getValue (setData c10CESt none) ≠ { getValue c10CESt with description := "" } := by
  refine ⟨rfl, by decide, by decide, by decide⟩

/-- C10 (amended): assigning null clears only the structured object — every
declared attribute keeps its value and the description read becomes empty —
and the remaining view-model fields are unchanged exactly on states where
no field was being served from the structured fallback; fields that were
relying on it revert to their empty defaults. -/
theorem c10_clear_structured (st : ElemState) :
    (setData st none).attrs = st.attrs
    ∧ (setData st none).data = none
    ∧ (getValue (setData st none)).description = ""
    ∧ (NoStructFallback st →
        getValue (setData st none) = { getValue st with description := "" }) := by
  refine ⟨rfl, rfl, rfl, ?_⟩
  rintro ⟨hid, htitle, himage, hupdated, hgenres, hseasons⟩
  apply vmExt
  · exact (orNE_struct_drop hid).symm
  · exact (orNE_struct_drop htitle).symm
  · exact (orNE_struct_drop himage).symm
  · exact readGenres_drop hgenres
  · exact readInt_drop hseasons
  · exact (orNE_struct_drop hupdated).symm
  · rfl

/-- C10 witness: on a fully declared state holding only a structured
description, clearing the structured object leaves the view model intact
except for the emptied description. -/
theorem c10_clear_structured_witness :
    getValue (setData c10St none) = { getValue c10St with description := "" } :=
  (c10_clear_structured c10St).2.2.2 (by decide)

/-! ### C1: the structured round-trip -/

theorem orNE_roundtrip (x : Option String) : orNE (some (x.getD "")) (orNE x "") = x.getD "" := by
  cases x with
  | none => rfl
  | some s => by_cases hs : s = "" <;> simp [orNE, hs]

theorem orNE_getD (x : Option String) : orNE x "" = x.getD "" := by
  cases x with
  | none => rfl
  | some s => by_cases hs : s = "" <;> simp [orNE, hs]

/-- C1 counterexample: the structured genre name `"1"` (a display-name
string of the PodcastSummary shape) is not reproduced by the setter/getter
round-trip — the attribute mirror turns it into the integer 1. -/
theorem c1_counterexample :
    getValue (setData st0 (some c1CEObj)) ≠ reproVM c1CEObj
    ∧ (getValue (setData st0 (some c1CEObj))).genres = [.num (.fin 1)]
    ∧ (reproVM c1CEObj).genres = [.str "1"] := by
  refine ⟨by decide, by decide, by decide⟩

/-- C1 (amended): for every structured input of the PodcastSummary shape
whose genre display names are non-empty, comma-free, trimmed and not
parseable as numbers, assigning it and reading the view model reproduces
every field (absent fields as empty defaults); and the description is
never readable when no structured object is retained, so it is obtainable
through the structured path alone. -/
theorem c1_structured_roundtrip (st : ElemState) (o : Summary) (h : GoodSummary o) :
    getValue (setData st (some o)) = reproVM o
    ∧ (∀ st2 : ElemState, st2.data = none → (getValue st2).description = "") := by
  constructor
  · apply vmExt
    · exact orNE_roundtrip o.id
    · exact orNE_roundtrip o.title
    · exact orNE_roundtrip o.image
    · show parseGenres (genresAttrOf o) = (o.genres.getD []).map SGenre.toGVal
      unfold genresAttrOf
      cases hg : o.genres with
      | none => decide
      | some gl =>
        show parseGenres (joinComma (gl.map SGenre.toJoinString)) = gl.map SGenre.toGVal
        apply parseGenres_join
        intro g hgm
        apply h
        rw [hg]
        exact hgm
    · show readInt (setData st (some o)) = .fin ((o.seasons.getD 0 : Nat) : ℚ)
      cases hs : o.seasons with
      | none =>
        have ha : (setData st (some o)).attrs.seasons = some "" := by
          show some (seasonsAttrOf o) = some ""
          unfold seasonsAttrOf
          rw [hs]
        simp [readInt, jsNumOfAttr, ha]
        rw [show strToNum "" = JsNum.fin 0 from by decide]
        simp [JsNum.isFinite]
      | some n =>
        have ha : (setData st (some o)).attrs.seasons = some (natToString n) := by
          show some (seasonsAttrOf o) = some (natToString n)
          unfold seasonsAttrOf
          rw [hs]
        simp [readInt, jsNumOfAttr, ha, strToNum_natToString, JsNum.isFinite]
    · exact orNE_roundtrip o.updated
    · exact orNE_getD o.description
  · intro st2 h2
    show orNE (st2.data.bind fun d => d.description) "" = ""
    rw [h2]
    rfl

/-- C1 witness: a representative summary (id, title, image, a mixed genre
list with an integer ID and a clean name, two seasons, a date and a
description) round-trips exactly. -/
theorem c1_structured_roundtrip_witness :
    getValue (setData st0 (some c1Obj)) = reproVM c1Obj :=
  (c1_structured_roundtrip st0 c1Obj (by decide)).1

end DJS02
